import Mathlib

/-
Verification development for the zzstat-json template compiler.

Shallow embedding of the library sources:
  * src/config.rs               : SourceValue, SourceConfig, TransformConfig, StatConfig
  * src/transform.rs            : AdditiveTransform
  * src/transform_map.rs        : MapTransform
  * src/transform_conditional.rs: ConditionalTransform, ConditionalOperator
  * src/template.rs             : StatTemplateManager (apply_template, resolve_source,
                                  resolve_transform_with_entity, resolve_transform,
                                  load_entity_stats, templates_to_json, from_json)

Modelling conventions:
  * Rust f64 values are embedded as rationals.  The numeric expressions of the
    sources (sums, products, comparisons, the epsilon used by the equality
    operator) are transcribed literally on that number type.
  * Rust HashMap values are embedded as association lists looked up with
    List.lookup; the template HashMap, the parameter HashMap and the dependency
    value HashMap all become association lists.
  * Rust str::parse::<f64> is an external library routine; it is treated as an
    abstract parameter (parse : String -> Option Rat) of every definition that
    needs it, so every theorem quantifies over the numeric parser.
  * String primitives (starts_with, ends_with, byte slicing, trim) are
    transcribed as structurally recursive List Char operations; on the ASCII
    delimiter pairs used by the code the Rust byte variants and these char
    variants agree.
  * Rust &mut receivers become explicit state passing: a method that mutates a
    resolver returns the new resolver; apply_template takes the manager by
    shared reference (&self) and therefore returns the manager unchanged.
  * Fallible Rust functions returning Result become Except with the same error
    payloads (the formatted message strings of the source).
-/

/-- Stat identifiers (zzstat StatId wraps a string built with StatId::from_str). -/
abbrev StatId := String

/-- Parameter table: HashMap<String, f64> supplied per template application. -/
abbrev Params := List (String × ℚ)

/-- Dependency values handed to a transform apply call: HashMap<StatId, f64>. -/
abbrev DepValues := List (StatId × ℚ)

/-- The f64 machine epsilon used by the conditional equality operator:
f64::EPSILON = 2^(-52). -/
def f64Epsilon : ℚ := 1 / 2 ^ 52

/-- Char-level transcription of Rust str::starts_with. -/
def strStartsWith (s pre : String) : Bool := pre.toList.isPrefixOf s.toList

/-- Char-level transcription of Rust str::ends_with. -/
def strEndsWith (s suf : String) : Bool := suf.toList.isSuffixOf s.toList

/-- Char-level transcription of the Rust byte slice s[n..] (the code only drops
the two ASCII bytes of a brace pair, where bytes and chars coincide). -/
def strDrop (s : String) (n : Nat) : String := String.mk (s.toList.drop n)

/-- Char-level transcription of the Rust byte slice s[..len-n]. -/
def strDropRight (s : String) (n : Nat) : String :=
  String.mk (s.toList.take (s.toList.length - n))

/-- Char-level transcription of Rust str::trim: whitespace removed from both
ends. -/
def strTrim (s : String) : String :=
  String.mk (((s.toList.dropWhile Char.isWhitespace).reverse.dropWhile
      Char.isWhitespace).reverse)

/-- SourceValue (config.rs): a numeric literal or a string, the string being
either a double-brace parameter placeholder or a textual number. -/
inductive SourceValue where
  | number (n : ℚ)
  | string (s : String)

/-- SourceValue::resolve (config.rs lines 97-115).  A number resolves to
itself; a string of the form with leading and trailing double braces looks up
the trimmed inner name in the parameter table; any other string goes to the
numeric parser.  Error payloads are the formatted strings of the source. -/
def SourceValue.resolve (parse : String → Option ℚ) (v : SourceValue)
    (params : Params) : Except String ℚ :=
  match v with
  | .number n => .ok n
  | .string s =>
      if strStartsWith s "\x7b\x7b" && strEndsWith s "\x7d\x7d" then
        let paramName := strTrim (strDropRight (strDrop s 2) 2)
        match params.lookup paramName with
        | some val => .ok val
        | none => .error ("Parameter not found: " ++ paramName)
      else
        match parse s with
        | some n => .ok n
        | none => .error ("Invalid number: " ++ s)

/-- SourceConfig (config.rs): constant and scaling source descriptions. -/
inductive SourceConfig where
  | constant (value : SourceValue) (name : Option String)
  | scaling (base : SourceValue) (scale : SourceValue) (level : Option SourceValue)
      (name : Option String)

/-- TransformConfig (config.rs): the five transform descriptions; conditional
holds boxed sub-descriptions for its then and optional else branches. -/
inductive TransformConfig where
  | multiplicative (value : SourceValue) (name : Option String)
  | additive (value : SourceValue) (name : Option String)
  | clamp (min : Option SourceValue) (max : Option SourceValue) (name : Option String)
  | conditional (condition_stat : String) (condition_value : ℚ) (operator : String)
      (thenBranch : TransformConfig) (else_then : Option TransformConfig)
  | map (dependencies : List String) (multiplier : Option SourceValue)
      (name : Option String)

/-- ConditionalOperator (transform_conditional.rs lines 15-22). -/
inductive ConditionalOperator where
  | greaterThan
  | lessThan
  | greaterThanOrEqual
  | lessThanOrEqual
  | equal

/-- ConditionalOperator::from_str (transform_conditional.rs lines 25-34). -/
def ConditionalOperator.fromStr (op : String) : Except String ConditionalOperator :=
  if op = ">" then .ok .greaterThan
  else if op = "<" then .ok .lessThan
  else if op = ">=" then .ok .greaterThanOrEqual
  else if op = "<=" then .ok .lessThanOrEqual
  else if op = "==" then .ok .equal
  else .error ("Invalid operator: " ++ op)

/-- ConditionalOperator::evaluate (transform_conditional.rs lines 36-44);
equality compares the absolute difference against f64::EPSILON. -/
def ConditionalOperator.evaluate (op : ConditionalOperator)
    (stat_value condition_value : ℚ) : Bool :=
  match op with
  | .greaterThan => decide (stat_value > condition_value)
  | .lessThan => decide (stat_value < condition_value)
  | .greaterThanOrEqual => decide (stat_value ≥ condition_value)
  | .lessThanOrEqual => decide (stat_value ≤ condition_value)
  | .equal => decide (|stat_value - condition_value| < f64Epsilon)

/-- StatError: the zzstat error raised by transform application; the only
variant these sources construct is MissingDependency. -/
inductive StatError where
  | missingDependency (id : StatId)
deriving DecidableEq

/-- YamlStatError (error.rs); the template compilation paths only construct
the InvalidConfig variant, carrying the formatted message. -/
inductive YamlStatError where
  | invalidConfig (msg : String)
deriving DecidableEq

/-- Compiled transform units.  The Rust code registers boxed StatTransform
trait objects; the closed set of units the compiler can build is
MultiplicativeTransform and ClampTransform (zzstat), AdditiveTransform
(transform.rs), ConditionalTransform (transform_conditional.rs) and
MapTransform (transform_map.rs).  For clamp, a missing bound stands for the
NEG_INFINITY / INFINITY default of template.rs lines 434-449. -/
inductive CTransform where
  | multiplicative (factor : ℚ)
  | additive (value : ℚ)
  | clamp (minVal : Option ℚ) (maxVal : Option ℚ)
  | conditional (condition_stat_id : StatId) (condition_value : ℚ)
      (operator : ConditionalOperator) (then_transform : CTransform)
      (else_transform : Option CTransform)
  | map (dependency_ids : List StatId) (multiplier : ℚ)

/-- StatTransform::depends_on of each compiled unit: multiplicative, additive
and clamp return the empty list; ConditionalTransform (transform_conditional.rs
lines 134-146) returns the condition stat followed by the then and else
dependencies; MapTransform (transform_map.rs lines 30-33) returns its
dependency list. -/
def CTransform.dependsOn : CTransform → List StatId
  | .multiplicative _ => []
  | .additive _ => []
  | .clamp _ _ => []
  | .conditional condition_stat_id _ _ then_transform else_transform =>
      (condition_stat_id :: then_transform.dependsOn) ++
        (match else_transform with
         | some et => et.dependsOn
         | none => [])
  | .map dependency_ids _ => dependency_ids

/-- The summation loop of MapTransform::apply (transform_map.rs lines 42-49):
walk the declared dependencies accumulating their values, failing with
MissingDependency at the first absent one. -/
def MapTransform.sumDeps (dependency_ids : List StatId) (dependencies : DepValues)
    (acc : ℚ) : Except StatError ℚ :=
  match dependency_ids with
  | [] => .ok acc
  | dep_id :: rest =>
      match dependencies.lookup dep_id with
      | none => .error (.missingDependency dep_id)
      | some dep_value => MapTransform.sumDeps rest dependencies (acc + dep_value)

/-- StatTransform::apply of each compiled unit.
Multiplicative and clamp are the zzstat units, modelled from the spec
(sections 4.3 and 6): multiplicative returns current * factor, clamp bounds the
value (absent bounds act as minus/plus infinity).  Additive is transform.rs
lines 25-32.  Conditional is transform_conditional.rs lines 148-174: the
condition stat value is read from the dependency map with default 0.0, the
operator is evaluated against the condition value, and the call delegates to
the then transform, the else transform, or returns the value unchanged.
Map is transform_map.rs lines 35-53: sum the dependency values (failing on any
absent one) and return value + sum * multiplier. -/
def CTransform.apply (t : CTransform) (value : ℚ) (dependencies : DepValues) :
    Except StatError ℚ :=
  match t with
  | .multiplicative factor => .ok (value * factor)
  | .additive v => .ok (value + v)
  | .clamp minVal maxVal =>
      let lowered := match minVal with
        | some m => max value m
        | none => value
      let bounded := match maxVal with
        | some m => min lowered m
        | none => lowered
      .ok bounded
  | .conditional condition_stat_id condition_value operator then_transform else_transform =>
      let condition_stat_value := (dependencies.lookup condition_stat_id).getD 0
      if operator.evaluate condition_stat_value condition_value then
        then_transform.apply value dependencies
      else
        match else_transform with
        | some else_tr => else_tr.apply value dependencies
        | none => .ok value
  | .map dependency_ids multiplier =>
      match MapTransform.sumDeps dependency_ids dependencies 0 with
      | .error e => .error e
      | .ok sum => .ok (value + sum * multiplier)

/-- StatTemplate (config.rs lines 17-30). -/
structure StatTemplate where
  description : Option String
  sources : List SourceConfig
  transforms : List TransformConfig

/-- StatDefinition (config.rs lines 33-42). -/
structure StatDefinition where
  sources : List SourceConfig
  transforms : List TransformConfig

/-- StatConfig (config.rs lines 5-14): the two top level maps. -/
structure StatConfig where
  templates : List (String × StatTemplate)
  stats : List (String × StatDefinition)

/-- EntityStatConfig (template.rs lines 8-18): the entity stat application
record. -/
structure EntityStatConfig where
  entity_id : String
  stat_type : String
  template_name : String
  params : Params
deriving DecidableEq

/-- StatTemplateManager (template.rs lines 30-34): the template table plus the
entity configuration cache keyed by entity id. -/
structure StatTemplateManager where
  templates : List (String × StatTemplate)
  entity_configs : List (String × List EntityStatConfig)

/-- The external resolver state visible to this crate: the sources (all
compiled to ConstantSource, hence a number each) and transforms registered
under each stat id, in registration order. -/
structure StatResolver where
  sources : List (StatId × ℚ)
  transforms : List (StatId × CTransform)

/-- StatResolver::register_source: appends the unit under the stat id. -/
def StatResolver.registerSource (r : StatResolver) (id : StatId) (v : ℚ) :
    StatResolver :=
  { r with sources := r.sources ++ [(id, v)] }

/-- StatResolver::register_transform: appends the unit under the stat id. -/
def StatResolver.registerTransform (r : StatResolver) (id : StatId)
    (t : CTransform) : StatResolver :=
  { r with transforms := r.transforms ++ [(id, t)] }

/-- StatTemplateManager::entity_stat_id (template.rs lines 99-101). -/
def StatTemplateManager.entityStatId (entity_id stat_type : String) : String :=
  entity_id ++ ":" ++ stat_type

/-- The entity id derivation inlined in apply_template (template.rs lines
316-322): stat_name.find(colon) and the slice up to that position, or the
empty string when no colon occurs. -/
def extractEntityId (stat_name : String) : String :=
  match stat_name.toList.findIdx? (· == ':') with
  | some colon_pos => String.mk (stat_name.toList.take colon_pos)
  | none => ""

/-- StatTemplateManager::resolve_source (template.rs lines 365-407).  Both
variants compile to a ConstantSource, represented by its value: a constant by
resolving its value expression, a scaling source as base + scale * level with
level defaulting to 1.0. -/
def StatTemplateManager.resolveSource (parse : String → Option ℚ)
    (config : SourceConfig) (params : Params) : Except YamlStatError ℚ :=
  match config with
  | .constant value _ =>
      match value.resolve parse params with
      | .error e => .error (.invalidConfig ("Source resolution error: " ++ e))
      | .ok resolved_value => .ok resolved_value
  | .scaling base scale level _ =>
      match base.resolve parse params with
      | .error e => .error (.invalidConfig ("Base resolution error: " ++ e))
      | .ok base_val =>
      match scale.resolve parse params with
      | .error e => .error (.invalidConfig ("Scale resolution error: " ++ e))
      | .ok scale_val =>
      match (match level with
             | some l => (l.resolve parse params).map some
             | none => .ok none) with
      | .error e => .error (.invalidConfig ("Level resolution error: " ++ e))
      | .ok level_opt => .ok (base_val + scale_val * level_opt.getD 1)

mutual

/-- StatTemplateManager::resolve_transform_with_entity (template.rs lines
410-504) together with the inlined ConditionalTransform::from_config
(transform_conditional.rs lines 92-130).  The conditional branch scopes the
condition stat with the entity id, parses the operator, and resolves the then
and else sub-descriptions through resolve_transform, that is with the empty
entity id (the else side through the resolveElseThen helper below, which is
the transpose of the optional resolution in from_config lines 118-121).  The
map branch scopes each dependency name with the entity id when it is non-empty
and resolves the multiplier with default 1.0. -/
def StatTemplateManager.resolveTransformWithEntity (parse : String → Option ℚ)
    (config : TransformConfig) (params : Params) (entity_id : String) :
    Except YamlStatError CTransform :=
  match config with
  | .multiplicative value _ =>
      match value.resolve parse params with
      | .error e => .error (.invalidConfig ("Transform resolution error: " ++ e))
      | .ok resolved_value => .ok (.multiplicative resolved_value)
  | .additive value _ =>
      match value.resolve parse params with
      | .error e => .error (.invalidConfig ("Transform resolution error: " ++ e))
      | .ok resolved_value => .ok (.additive resolved_value)
  | .clamp minC maxC _ =>
      match (match minC with
             | some m => (m.resolve parse params).map some
             | none => .ok none) with
      | .error e => .error (.invalidConfig ("Clamp min resolution error: " ++ e))
      | .ok min_val =>
      match (match maxC with
             | some m => (m.resolve parse params).map some
             | none => .ok none) with
      | .error e => .error (.invalidConfig ("Clamp max resolution error: " ++ e))
      | .ok max_val => .ok (.clamp min_val max_val)
  | .conditional condition_stat condition_value operator thenC else_then =>
      match ConditionalOperator.fromStr operator with
      | .error e => .error (.invalidConfig ("Operator error: " ++ e))
      | .ok op =>
      match StatTemplateManager.resolveTransformWithEntity parse thenC params "" with
      | .error e => .error e
      | .ok then_transform =>
      match StatTemplateManager.resolveElseThen parse else_then params with
      | .error e => .error e
      | .ok else_transform =>
          .ok (.conditional
                (if entity_id ≠ "" then entity_id ++ ":" ++ condition_stat
                 else condition_stat)
                condition_value op then_transform else_transform)
  | .map dependencies multiplier _ =>
      let dependency_ids : List StatId := dependencies.map (fun dep_name =>
        if entity_id ≠ "" then entity_id ++ ":" ++ dep_name else dep_name)
      match (match multiplier with
             | some m => (m.resolve parse params).map some
             | none => .ok none) with
      | .error e => .error (.invalidConfig ("Multiplier resolution error: " ++ e))
      | .ok multiplier_opt => .ok (.map dependency_ids (multiplier_opt.getD 1))

/-- The optional else-branch resolution of ConditionalTransform::from_config
(transform_conditional.rs lines 118-121): else_then.map(resolve_transform)
transposed, so an absent else branch resolves to none and a present one is
resolved with the empty entity id. -/
def StatTemplateManager.resolveElseThen (parse : String → Option ℚ)
    (else_then : Option TransformConfig) (params : Params) :
    Except YamlStatError (Option CTransform) :=
  match else_then with
  | some ec =>
      (StatTemplateManager.resolveTransformWithEntity parse ec params "").map some
  | none => .ok none

end

/-- StatTemplateManager::resolve_transform (template.rs lines 507-512):
resolution with the empty entity id. -/
def StatTemplateManager.resolveTransform (parse : String → Option ℚ)
    (config : TransformConfig) (params : Params) : Except YamlStatError CTransform :=
  StatTemplateManager.resolveTransformWithEntity parse config params ""

/-- The source loop of apply_template (template.rs lines 327-331): compile and
register each source in template order, stopping at the first failure. -/
def StatTemplateManager.applySources (parse : String → Option ℚ)
    (configs : List SourceConfig) (params : Params) (stat_id : StatId)
    (resolver : StatResolver) : StatResolver × Option YamlStatError :=
  match configs with
  | [] => (resolver, none)
  | c :: rest =>
      match StatTemplateManager.resolveSource parse c params with
      | .error e => (resolver, some e)
      | .ok v =>
          StatTemplateManager.applySources parse rest params stat_id
            (resolver.registerSource stat_id v)

/-- The transform loop of apply_template (template.rs lines 334-338): compile
(with the derived entity id) and register each transform in template order,
stopping at the first failure. -/
def StatTemplateManager.applyTransforms (parse : String → Option ℚ)
    (configs : List TransformConfig) (params : Params) (entity_id : String)
    (stat_id : StatId) (resolver : StatResolver) :
    StatResolver × Option YamlStatError :=
  match configs with
  | [] => (resolver, none)
  | c :: rest =>
      match StatTemplateManager.resolveTransformWithEntity parse c params entity_id with
      | .error e => (resolver, some e)
      | .ok t =>
          StatTemplateManager.applyTransforms parse rest params entity_id stat_id
            (resolver.registerTransform stat_id t)

/-- StatTemplateManager::apply_template (template.rs lines 301-341): look up
the template, derive the entity id from the target stat name, register every
source then every transform, stopping at the first failing step.  The method
takes the manager by shared reference, so the manager comes back unchanged. -/
def StatTemplateManager.applyTemplate (parse : String → Option ℚ)
    (mgr : StatTemplateManager) (resolver : StatResolver)
    (template_name stat_name : String) (params : Params) :
    StatTemplateManager × StatResolver × Option YamlStatError :=
  match mgr.templates.lookup template_name with
  | none =>
      (mgr, resolver, some (.invalidConfig ("Template not found: " ++ template_name)))
  | some t =>
      let stat_id : StatId := stat_name
      let entity_id := extractEntityId stat_name
      match StatTemplateManager.applySources parse t.sources params stat_id resolver with
      | (r1, some e) => (mgr, r1, some e)
      | (r1, none) =>
          match StatTemplateManager.applyTransforms parse t.transforms params
              entity_id stat_id r1 with
          | (r2, oe) => (mgr, r2, oe)

/-- The caching step of load_entity_stats (template.rs lines 138-143):
entity_configs.entry(id).or_default().push(config) on the association list. -/
def pushEntityConfig (cache : List (String × List EntityStatConfig))
    (config : EntityStatConfig) : List (String × List EntityStatConfig) :=
  match cache with
  | [] => [(config.entity_id, [config])]
  | (k, v) :: rest =>
      if k = config.entity_id then (k, v ++ [config]) :: rest
      else (k, v) :: pushEntityConfig rest config

/-- The application loop of load_entity_stats (template.rs lines 132-136):
apply each record through apply_template, returning the first error. -/
def StatTemplateManager.loadEntityStatsLoop (parse : String → Option ℚ)
    (mgr : StatTemplateManager) (resolver : StatResolver)
    (configs : List EntityStatConfig) : StatResolver × Option YamlStatError :=
  match configs with
  | [] => (resolver, none)
  | c :: rest =>
      match StatTemplateManager.applyTemplate parse mgr resolver c.template_name
          (StatTemplateManager.entityStatId c.entity_id c.stat_type) c.params with
      | (_, r1, some e) => (r1, some e)
      | (_, r1, none) => StatTemplateManager.loadEntityStatsLoop parse mgr r1 rest

/-- StatTemplateManager::load_entity_stats (template.rs lines 127-146): apply
every record (an error aborts before any caching), then push every record into
the entity configuration cache keyed by entity id. -/
def StatTemplateManager.loadEntityStats (parse : String → Option ℚ)
    (mgr : StatTemplateManager) (resolver : StatResolver)
    (entity_configs : List EntityStatConfig) :
    StatTemplateManager × StatResolver × Option YamlStatError :=
  match StatTemplateManager.loadEntityStatsLoop parse mgr resolver entity_configs with
  | (r1, some e) => (mgr, r1, some e)
  | (r1, none) =>
      ({ mgr with entity_configs :=
            entity_configs.foldl pushEntityConfig mgr.entity_configs }, r1, none)

/-- JSON values: the structured document form produced and consumed by the
serde codec (treated as a black box string codec by the spec; modelled here at
the level of the JSON tree). -/
inductive JsonValue where
  | null
  | num (q : ℚ)
  | str (s : String)
  | arr (elems : List JsonValue)
  | obj (fields : List (String × JsonValue))

/-- Modelled from the spec: the serde serialization of SourceValue, an
untagged union (config.rs lines 74-81) - a number serializes as a JSON number,
a string as a JSON string. -/
def encodeSourceValue : SourceValue → JsonValue
  | .number n => .num n
  | .string s => .str s

/-- Modelled from the spec: the serde deserialization of the untagged
SourceValue - the Number variant is tried first, then String. -/
def decodeSourceValue : JsonValue → Option SourceValue
  | .num n => some (.number n)
  | .str s => some (.string s)
  | _ => none

/-- Modelled from the spec: serialization of the optional descriptive name
field, which carries skip_serializing_if Option::is_none - absent when none. -/
def encodeOptName : Option String → List (String × JsonValue)
  | none => []
  | some nm => [("name", .str nm)]

/-- Modelled from the spec: deserialization of the optional trailing name
field (absent or a string, defaulting to none). -/
def decodeOptName : List (String × JsonValue) → Option (Option String)
  | [] => some none
  | [("name", .str nm)] => some (some nm)
  | _ => none

/-- Modelled from the spec: serialization of an Option SourceValue field
without skip attribute - null when none. -/
def encodeOptSourceValue : Option SourceValue → JsonValue
  | none => .null
  | some v => encodeSourceValue v

/-- Modelled from the spec: deserialization of an optional SourceValue field -
null maps to none. -/
def decodeOptSourceValue : JsonValue → Option (Option SourceValue)
  | .null => some none
  | j => (decodeSourceValue j).map some

/-- Modelled from the spec: the serde serialization of SourceConfig with the
internal tag field named type (config.rs lines 44-71), fields in declaration
order. -/
def encodeSourceConfig : SourceConfig → JsonValue
  | .constant value name =>
      .obj ([("type", .str "constant"), ("value", encodeSourceValue value)] ++
        encodeOptName name)
  | .scaling base scale level name =>
      .obj ([("type", .str "scaling"), ("base", encodeSourceValue base),
             ("scale", encodeSourceValue scale),
             ("level", encodeOptSourceValue level)] ++ encodeOptName name)

/-- Modelled from the spec: the serde deserialization of SourceConfig,
dispatching on the type tag. -/
def decodeSourceConfig : JsonValue → Option SourceConfig
  | .obj (("type", .str "constant") :: ("value", v) :: rest) =>
      match decodeSourceValue v, decodeOptName rest with
      | some sv, some nm => some (.constant sv nm)
      | _, _ => none
  | .obj (("type", .str "scaling") :: ("base", b) :: ("scale", sc) ::
        ("level", lv) :: rest) =>
      match decodeSourceValue b, decodeSourceValue sc, decodeOptSourceValue lv,
          decodeOptName rest with
      | some bv, some scv, some lvv, some nm => some (.scaling bv scv lvv nm)
      | _, _, _, _ => none
  | _ => none

mutual

/-- Modelled from the spec: the serde serialization of TransformConfig with
the internal tag field named type (config.rs lines 118-181), fields in
declaration order; the boxed then and else_then branches serialize
recursively, else_then as null when absent. -/
def encodeTransformConfig : TransformConfig → JsonValue
  | .multiplicative value name =>
      .obj ([("type", .str "multiplicative"), ("value", encodeSourceValue value)] ++
        encodeOptName name)
  | .additive value name =>
      .obj ([("type", .str "additive"), ("value", encodeSourceValue value)] ++
        encodeOptName name)
  | .clamp mn mx name =>
      .obj ([("type", .str "clamp"), ("min", encodeOptSourceValue mn),
             ("max", encodeOptSourceValue mx)] ++ encodeOptName name)
  | .conditional condition_stat condition_value operator thenC else_then =>
      .obj [("type", .str "conditional"), ("condition_stat", .str condition_stat),
            ("condition_value", .num condition_value), ("operator", .str operator),
            ("then", encodeTransformConfig thenC),
            ("else_then", encodeElseThen else_then)]
  | .map dependencies multiplier name =>
      .obj ([("type", .str "map"),
             ("dependencies", .arr (dependencies.map JsonValue.str)),
             ("multiplier", encodeOptSourceValue multiplier)] ++ encodeOptName name)

/-- Modelled from the spec: serialization of the optional else_then branch -
null when absent, the serialized transform otherwise. -/
def encodeElseThen : Option TransformConfig → JsonValue
  | some e => encodeTransformConfig e
  | none => .null

end

/-- Modelled from the spec: deserialization of a JSON array of strings (the
map dependency list). -/
def decodeStrList : List JsonValue → Option (List String)
  | [] => some []
  | .str s :: rest => (decodeStrList rest).map (fun l => s :: l)
  | _ => none

mutual

/-- Modelled from the spec: the serde deserialization of TransformConfig,
dispatching on the type tag and recursing into conditional branches. -/
def decodeTransformConfig : JsonValue → Option TransformConfig
  | .obj (("type", .str "multiplicative") :: ("value", v) :: rest) =>
      match decodeSourceValue v, decodeOptName rest with
      | some sv, some nm => some (.multiplicative sv nm)
      | _, _ => none
  | .obj (("type", .str "additive") :: ("value", v) :: rest) =>
      match decodeSourceValue v, decodeOptName rest with
      | some sv, some nm => some (.additive sv nm)
      | _, _ => none
  | .obj (("type", .str "clamp") :: ("min", mn) :: ("max", mx) :: rest) =>
      match decodeOptSourceValue mn, decodeOptSourceValue mx, decodeOptName rest with
      | some mnv, some mxv, some nm => some (.clamp mnv mxv nm)
      | _, _, _ => none
  | .obj [("type", .str "conditional"), ("condition_stat", .str condition_stat),
          ("condition_value", .num condition_value), ("operator", .str operator),
          ("then", tj), ("else_then", ej)] =>
      match decodeTransformConfig tj with
      | none => none
      | some thenC =>
          match decodeElseThen ej with
          | none => none
          | some elseC =>
              some (.conditional condition_stat condition_value operator thenC elseC)
  | .obj (("type", .str "map") :: ("dependencies", .arr ds) ::
        ("multiplier", mj) :: rest) =>
      match decodeStrList ds, decodeOptSourceValue mj, decodeOptName rest with
      | some dsv, some mjv, some nm => some (.map dsv mjv nm)
      | _, _, _ => none
  | _ => none

/-- Modelled from the spec: deserialization of the optional else_then branch -
null maps to none, anything else is decoded as a transform. -/
def decodeElseThen : JsonValue → Option (Option TransformConfig)
  | .null => some none
  | j => (decodeTransformConfig j).map some

end

/-- Modelled from the spec: the serde serialization of StatTemplate (config.rs
lines 17-30) - description (null when absent), sources, transforms. -/
def encodeStatTemplate (t : StatTemplate) : JsonValue :=
  .obj [("description", match t.description with
          | some d => .str d
          | none => .null),
        ("sources", .arr (t.sources.map encodeSourceConfig)),
        ("transforms", .arr (t.transforms.map encodeTransformConfig))]

/-- Modelled from the spec: deserialization of a JSON array elementwise by the
given decoder, failing when any element fails. -/
def decodeJsonList {α : Type} (dec : JsonValue → Option α) :
    List JsonValue → Option (List α)
  | [] => some []
  | j :: rest =>
      match dec j, decodeJsonList dec rest with
      | some a, some l => some (a :: l)
      | _, _ => none

/-- Modelled from the spec: the serde deserialization of StatTemplate. -/
def decodeStatTemplate : JsonValue → Option StatTemplate
  | .obj [("description", dj), ("sources", .arr sj), ("transforms", .arr tj)] =>
      match (match dj with
             | .null => some none
             | .str d => some (some d)
             | _ => none) with
      | none => none
      | some d =>
          match decodeJsonList decodeSourceConfig sj,
              decodeJsonList decodeTransformConfig tj with
          | some ss, some ts =>
              some { description := d, sources := ss, transforms := ts }
          | _, _ => none
  | _ => none

/-- Modelled from the spec: the serde serialization of StatDefinition
(config.rs lines 33-42). -/
def encodeStatDefinition (d : StatDefinition) : JsonValue :=
  .obj [("sources", .arr (d.sources.map encodeSourceConfig)),
        ("transforms", .arr (d.transforms.map encodeTransformConfig))]

/-- Modelled from the spec: the serde deserialization of StatDefinition. -/
def decodeStatDefinition : JsonValue → Option StatDefinition
  | .obj [("sources", .arr sj), ("transforms", .arr tj)] =>
      match decodeJsonList decodeSourceConfig sj,
          decodeJsonList decodeTransformConfig tj with
      | some ss, some ts => some { sources := ss, transforms := ts }
      | _, _ => none
  | _ => none

/-- Modelled from the spec: deserialization of a JSON object as a string keyed
map of values decoded by the given decoder. -/
def decodeNamedList {α : Type} (dec : JsonValue → Option α) :
    List (String × JsonValue) → Option (List (String × α))
  | [] => some []
  | (k, j) :: rest =>
      match dec j, decodeNamedList dec rest with
      | some a, some l => some ((k, a) :: l)
      | _, _ => none

/-- Modelled from the spec: the serde serialization of StatConfig (config.rs
lines 5-14) - the templates map and the stats map. -/
def encodeStatConfig (c : StatConfig) : JsonValue :=
  .obj [("templates", .obj (c.templates.map (fun p => (p.1, encodeStatTemplate p.2)))),
        ("stats", .obj (c.stats.map (fun p => (p.1, encodeStatDefinition p.2))))]

/-- Modelled from the spec: the serde deserialization of StatConfig. -/
def decodeStatConfig : JsonValue → Option StatConfig
  | .obj [("templates", .obj tj), ("stats", .obj sj)] =>
      match decodeNamedList decodeStatTemplate tj,
          decodeNamedList decodeStatDefinition sj with
      | some ts, some ss => some { templates := ts, stats := ss }
      | _, _ => none
  | _ => none

/-- StatTemplateManager::templates_to_json (template.rs lines 80-87):
serialize a StatConfig holding the manager templates and an empty stats map. -/
def StatTemplateManager.templatesToJson (mgr : StatTemplateManager) : JsonValue :=
  encodeStatConfig { templates := mgr.templates, stats := [] }

/-- StatTemplateManager::from_json followed by from_config (template.rs lines
50-69): parse a StatConfig and keep its templates with an empty entity
configuration cache. -/
def StatTemplateManager.fromJson (j : JsonValue) : Option StatTemplateManager :=
  (decodeStatConfig j).map (fun config =>
    { templates := config.templates, entity_configs := [] })

/-- The longest prefix of compilation results that succeeded, in order. -/
def okPre {E A : Type} : List (Except E A) → List A
  | [] => []
  | .ok a :: rest => a :: okPre rest
  | .error _ :: _ => []

/-- The first error among a list of compilation results, if any. -/
def firstErr {E A : Type} : List (Except E A) → Option E
  | [] => none
  | .ok _ :: rest => firstErr rest
  | .error e :: _ => some e

/-- A trivial numeric parser used to instantiate concrete examples (the
theorems themselves quantify over the parser). -/
def pNone : String → Option ℚ := fun _ => none

/-- The else side of ConditionalTransform::apply: delegate to the else
transform when present, otherwise return the running value unchanged. -/
def elseBranchApply (else_transform : Option CTransform) (value : ℚ)
    (dependencies : DepValues) : Except StatError ℚ :=
  match else_transform with
  | some else_tr => else_tr.apply value dependencies
  | none => .ok value

/-- A one-transform template holding a Map with dependency STR, used as the
concrete entity-scoping example. -/
def tmplMapSTR : StatTemplate :=
  { description := none, sources := [], transforms := [.map ["STR"] none none] }

/-- A manager holding tmplMapSTR under the name T. -/
def mgrMapSTR : StatTemplateManager :=
  { templates := [("T", tmplMapSTR)], entity_configs := [] }
/-- A template with a Map and a Conditional transform, used as the concrete
example for colon-prefixed global stat names. -/
def tmplMapCond : StatTemplate :=
  { description := none, sources := [],
    transforms := [.map ["STR"] none none,
                   .conditional "RAGE" 50 ">" (.additive (.number 1) none) none] }

/-- A manager holding tmplMapCond under the name T. -/
def mgrMapCond : StatTemplateManager :=
  { templates := [("T", tmplMapCond)], entity_configs := [] }
/-- A template whose single transform is a Conditional with a Map in its then
branch, used as the concrete nested-scoping example. -/
def tmplCondNested : StatTemplate :=
  { description := none, sources := [],
    transforms := [.conditional "RAGE" 50 ">" (.map ["STR"] none none) none] }

/-- A manager holding tmplCondNested under the name T. -/
def mgrCondNested : StatTemplateManager :=
  { templates := [("T", tmplCondNested)], entity_configs := [] }
/-- A one-source template compiling to the constant 100, used as the concrete
record-cache example. -/
def tmplConst100 : StatTemplate :=
  { description := none, sources := [.constant (.number 100) none], transforms := [] }

/-- A manager holding tmplConst100 under the name T, with an empty record
cache. -/
def mgrConst : StatTemplateManager :=
  { templates := [("T", tmplConst100)], entity_configs := [] }
/-- The concrete record used in the load_entity_stats example. -/
def cfgA : EntityStatConfig :=
  { entity_id := "A", stat_type := "HP", template_name := "T", params := [] }

/-- The manager state after loading cfgA into mgrConst. -/
def mgrAfterLoad : StatTemplateManager :=
  { templates := [("T", tmplConst100)], entity_configs := [("A", [cfgA])] }

/-- The resolver state after loading cfgA into an empty resolver. -/
def rAfterLoad : StatResolver :=
  { sources := [("A:HP", 100)], transforms := [] }
/-- The template used as the concrete partial-registration example: its second
source references an absent parameter, so compilation fails after the first
source has been registered. -/
def tmplFailingSource : StatTemplate :=
  { description := none,
    sources := [.constant (.number 1) none,
                .constant (.string "\x7b\x7bmissing\x7d\x7d") none,
                .constant (.number 2) none],
    transforms := [.additive (.number 3) none] }

/-- A manager holding tmplFailingSource under the name T. -/
def mgrFailingSource : StatTemplateManager :=
  { templates := [("T", tmplFailingSource)], entity_configs := [] }

theorem sumDeps_ok (dependencies : DepValues) :
    ∀ (ds : List StatId) (acc : ℚ), (∀ d ∈ ds, (dependencies.lookup d).isSome) →
      MapTransform.sumDeps ds dependencies acc =
        .ok (acc + (ds.map (fun d => (dependencies.lookup d).getD 0)).sum) := by
  intro ds
  induction ds with
  | nil => intro acc _; simp [MapTransform.sumDeps]
  | cons d rest ih =>
      intro acc h
      have hd : (dependencies.lookup d).isSome := h d (by simp)
      obtain ⟨v, hv⟩ := Option.isSome_iff_exists.mp hd
      have hrest : ∀ x ∈ rest, (dependencies.lookup x).isSome := by
        intro x hx; exact h x (by simp [hx])
      simp only [MapTransform.sumDeps, hv]
      rw [ih (acc + v) hrest]
      simp [hv]
      ring

theorem sumDeps_missing (dependencies : DepValues) :
    ∀ (ds : List StatId) (acc : ℚ), (∃ d ∈ ds, dependencies.lookup d = none) →
      ∃ d ∈ ds, dependencies.lookup d = none ∧
        MapTransform.sumDeps ds dependencies acc =
          .error (.missingDependency d) := by
  intro ds
  induction ds with
  | nil => intro acc h; simp at h
  | cons d rest ih =>
      intro acc h
      cases hd : dependencies.lookup d with
      | none =>
          exact ⟨d, by simp, hd, by simp [MapTransform.sumDeps, hd]⟩
      | some v =>
          have hrest : ∃ x ∈ rest, dependencies.lookup x = none := by
            obtain ⟨x, hx, hnone⟩ := h
            rcases List.mem_cons.mp hx with heq | hmem
            · subst heq; rw [hd] at hnone; exact absurd hnone (by simp)
            · exact ⟨x, hmem, hnone⟩
          obtain ⟨x, hx, hnone, heq⟩ := ih (acc + v) hrest
          exact ⟨x, by simp [hx], hnone, by simp [MapTransform.sumDeps, hd, heq]⟩

/-- Claim C4: a Map transform unit with dependency list ds and multiplier m
returns current_value + m * (sum of the dependency values) when every declared
dependency is present in the dependency map, and fails with a
MissingDependency error (never substituting zero) when any declared dependency
is absent. -/
theorem mapTransform_apply_strict (ds : List StatId) (m value : ℚ)
    (dependencies : DepValues) :
    ((∀ d ∈ ds, (dependencies.lookup d).isSome) →
      (CTransform.map ds m).apply value dependencies =
        .ok (value + m * (ds.map (fun d => (dependencies.lookup d).getD 0)).sum))
    ∧ ((∃ d ∈ ds, dependencies.lookup d = none) →
      ∃ d ∈ ds, dependencies.lookup d = none ∧
        (CTransform.map ds m).apply value dependencies =
          .error (.missingDependency d)) := by
  constructor
  · intro h
    rw [CTransform.apply, sumDeps_ok dependencies ds 0 h]
    simp
    ring
  · intro h
    obtain ⟨d, hd, hnone, heq⟩ := sumDeps_missing dependencies ds 0 h
    exact ⟨d, hd, hnone, by rw [CTransform.apply, heq]⟩

theorem mapTransform_apply_strict_witness :
    (CTransform.map ["Strength", "Vitality"] 2).apply 20
        [("Strength", 10), ("Vitality", 5)] = .ok 50
    ∧ (CTransform.map ["Strength", "Vitality"] 2).apply 20 [("Strength", 10)] =
        .error (.missingDependency "Vitality") := by
  constructor
  · have h := (mapTransform_apply_strict ["Strength", "Vitality"] 2 20
      [("Strength", 10), ("Vitality", 5)]).1 (by decide)
    rw [h]
    congr 1
    simp [List.lookup]
    norm_num
  · obtain ⟨d, hd, hnone, heq⟩ := (mapTransform_apply_strict
      ["Strength", "Vitality"] 2 20 [("Strength", 10)]).2 ⟨"Vitality", by decide, by decide⟩
    have hdv : d = "Vitality" := by
      rcases List.mem_cons.mp hd with h1 | h2
      · subst h1; revert hnone; decide
      · simpa using h2
    rw [hdv] at heq
    exact heq

/-- Claim C5: a Conditional transform unit reads the condition stat value from
the dependency map with default 0.0 when absent, evaluates the operator
against the condition value with the standard order relations (equality within
the f64 epsilon tolerance), and delegates to the then transform when the
condition holds, else to the else transform when present, else returns the
current value unchanged. -/
theorem conditionalTransform_apply_semantics (cid : StatId) (cv : ℚ)
    (tT : CTransform) (eT : Option CTransform) (value : ℚ)
    (dependencies : DepValues) :
    ((CTransform.conditional cid cv .greaterThan tT eT).apply value dependencies =
      if (dependencies.lookup cid).getD 0 > cv then tT.apply value dependencies
      else elseBranchApply eT value dependencies)
    ∧ ((CTransform.conditional cid cv .lessThan tT eT).apply value dependencies =
      if (dependencies.lookup cid).getD 0 < cv then tT.apply value dependencies
      else elseBranchApply eT value dependencies)
    ∧ ((CTransform.conditional cid cv .greaterThanOrEqual tT eT).apply value dependencies =
      if (dependencies.lookup cid).getD 0 ≥ cv then tT.apply value dependencies
      else elseBranchApply eT value dependencies)
    ∧ ((CTransform.conditional cid cv .lessThanOrEqual tT eT).apply value dependencies =
      if (dependencies.lookup cid).getD 0 ≤ cv then tT.apply value dependencies
      else elseBranchApply eT value dependencies)
    ∧ ((CTransform.conditional cid cv .equal tT eT).apply value dependencies =
      if |(dependencies.lookup cid).getD 0 - cv| < f64Epsilon
      then tT.apply value dependencies
      else elseBranchApply eT value dependencies)
    ∧ (dependencies.lookup cid = none →
        ∀ op : ConditionalOperator,
          (CTransform.conditional cid cv op tT eT).apply value dependencies =
            if op.evaluate 0 cv then tT.apply value dependencies
            else elseBranchApply eT value dependencies) := by
  have key : ∀ op : ConditionalOperator,
      (CTransform.conditional cid cv op tT eT).apply value dependencies =
        if op.evaluate ((dependencies.lookup cid).getD 0) cv
        then tT.apply value dependencies
        else elseBranchApply eT value dependencies := by
    intro op; cases eT <;> simp [CTransform.apply, elseBranchApply]
  refine ⟨?_, ?_, ?_, ?_, ?_, ?_⟩
  · rw [key]; simp [ConditionalOperator.evaluate]
  · rw [key]; simp [ConditionalOperator.evaluate]
  · rw [key]; simp [ConditionalOperator.evaluate]
  · rw [key]; simp [ConditionalOperator.evaluate]
  · rw [key]; simp [ConditionalOperator.evaluate]
  · intro hnone op
    rw [key]
    simp [hnone]

/-- Claim C6: SourceValue::resolve returns a numeric literal unchanged
regardless of the parameter table; a string with leading and trailing double
braces resolves the trimmed inner name against the parameter table (present
name gives its value, absent name the missing-parameter error); any other
string goes through the numeric parser, an unparsable string giving the
invalid-number error. -/
theorem sourceValue_resolve_semantics (parse : String → Option ℚ)
    (params : Params) :
    (∀ n : ℚ, (SourceValue.number n).resolve parse params = .ok n)
    ∧ (∀ s name : String,
        strStartsWith s "\x7b\x7b" = true → strEndsWith s "\x7d\x7d" = true →
        strTrim (strDropRight (strDrop s 2) 2) = name →
        (∀ v : ℚ, params.lookup name = some v →
            (SourceValue.string s).resolve parse params = .ok v)
        ∧ (params.lookup name = none →
            (SourceValue.string s).resolve parse params =
              .error ("Parameter not found: " ++ name)))
    ∧ (∀ s : String,
        (strStartsWith s "\x7b\x7b" && strEndsWith s "\x7d\x7d") = false →
        (SourceValue.string s).resolve parse params =
          (match parse s with
           | some n => .ok n
           | none => .error ("Invalid number: " ++ s))) := by
  refine ⟨fun n => rfl, ?_, ?_⟩
  · intro s name hs he hinner
    constructor
    · intro v hv
      simp [SourceValue.resolve, hs, he, hinner, hv]
    · intro hnone
      simp [SourceValue.resolve, hs, he, hinner, hnone]
  · intro s hfalse
    simp [SourceValue.resolve, hfalse]

theorem sourceValue_resolve_semantics_witness :
    (SourceValue.number 7).resolve pNone [("hp", 5)] = .ok 7
    ∧ (SourceValue.string "\x7b\x7b hp \x7d\x7d").resolve pNone [("hp", 5)] = .ok 5
    ∧ (SourceValue.string "\x7b\x7bmp\x7d\x7d").resolve pNone [("hp", 5)] =
        .error "Parameter not found: mp"
    ∧ (SourceValue.string "5abc").resolve pNone [("hp", 5)] =
        .error "Invalid number: 5abc" :=
  ⟨(sourceValue_resolve_semantics pNone [("hp", 5)]).1 7,
   ((sourceValue_resolve_semantics pNone [("hp", 5)]).2.1
      "\x7b\x7b hp \x7d\x7d" "hp" rfl rfl (by decide)).1 5 (by decide),
   ((sourceValue_resolve_semantics pNone [("hp", 5)]).2.1
      "\x7b\x7bmp\x7d\x7d" "mp" rfl rfl (by decide)).2 (by decide),
   ((sourceValue_resolve_semantics pNone [("hp", 5)]).2.2 "5abc" (by decide)).trans rfl⟩

/-- Claim C7: a Scaling source description whose base, scale and level
expressions resolve under the parameter table compiles to a constant source
unit whose value is base + scale * level, fixed at compile time; an omitted
level behaves as level = 1.0. -/
theorem scalingSource_value (parse : String → Option ℚ) (params : Params)
    (base scale : SourceValue) (nm : Option String) (b s : ℚ)
    (hb : base.resolve parse params = .ok b)
    (hs : scale.resolve parse params = .ok s) :
    (∀ (lvl : SourceValue) (l : ℚ), lvl.resolve parse params = .ok l →
        StatTemplateManager.resolveSource parse (.scaling base scale (some lvl) nm)
          params = .ok (b + s * l))
    ∧ StatTemplateManager.resolveSource parse (.scaling base scale none nm) params
        = .ok (b + s * 1) := by
  constructor
  · intro lvl l hl
    simp [StatTemplateManager.resolveSource, hb, hs, hl, Except.map]
  · simp [StatTemplateManager.resolveSource, hb, hs]

theorem scalingSource_value_witness :
    StatTemplateManager.resolveSource pNone
        (.scaling (.number 10) (.string "\x7b\x7bhp_per_level\x7d\x7d")
          (some (.number 5)) none) [("hp_per_level", 10)] = .ok 60
    ∧ StatTemplateManager.resolveSource pNone
        (.scaling (.number 10) (.string "\x7b\x7bhp_per_level\x7d\x7d") none none)
          [("hp_per_level", 10)] = .ok 20 := by
  have h := scalingSource_value pNone [("hp_per_level", 10)] (.number 10)
    (.string "\x7b\x7bhp_per_level\x7d\x7d") none 10 10 rfl rfl
  constructor
  · rw [h.1 (.number 5) 5 rfl]
    congr 1
    norm_num
  · rw [h.2]
    congr 1
    norm_num

theorem findIdx_colon_append (rest : List Char) :
    ∀ pre : List Char, ':' ∉ pre →
      (pre ++ ':' :: rest).findIdx? (· == ':') = some pre.length := by
  intro pre
  induction pre with
  | nil => intro _; simp [List.findIdx?_cons]
  | cons a pre ih =>
      intro h
      have ha : a ≠ ':' := fun hc => h (by simp [hc])
      have hrest : ':' ∉ pre := fun hc => h (by simp [hc])
      simp [List.findIdx?_cons, ha, ih hrest]

theorem findIdx_colon_none : ∀ l : List Char, ':' ∉ l →
    l.findIdx? (· == ':') = none := by
  intro l
  induction l with
  | nil => intro _; rfl
  | cons a l ih =>
      intro h
      have ha : a ≠ ':' := fun hc => h (by simp [hc])
      have hrest : ':' ∉ l := fun hc => h (by simp [hc])
      simp [List.findIdx?_cons, ha, ih hrest]

theorem mapTransform_scoped (parse : String → Option ℚ) (params : Params)
    (ds : List String) (mult : Option SourceValue) (nm : Option String)
    (eid : String) (mv : Option ℚ)
    (hm : (match mult with
           | some m => (m.resolve parse params).map some
           | none => Except.ok none) = .ok mv) :
    StatTemplateManager.resolveTransformWithEntity parse (.map ds mult nm) params eid
      = .ok (.map (ds.map (fun d => if eid ≠ "" then eid ++ ":" ++ d else d))
          (mv.getD 1)) := by
  simp [StatTemplateManager.resolveTransformWithEntity, hm]

/-- Claim C3: apply_template derives the entity id as the prefix of the target
stat name before the first colon (empty when no colon occurs); every Map
dependency name d compiles to the identifier entity_id ++ colon ++ d when the
entity id is non-empty and to the bare d when it is empty; in particular the
same template applied to A:HP and B:HP with Map dependency STR registers the
dependency identifiers A:STR and B:STR respectively. -/
theorem applyTemplate_entity_scoping (parse : String → Option ℚ)
    (params : Params) :
    (∀ (pre rest : List Char), ':' ∉ pre →
        extractEntityId (String.mk (pre ++ ':' :: rest)) = String.mk pre)
    ∧ (∀ s : String, ':' ∉ s.toList → extractEntityId s = "")
    ∧ (∀ (ds : List String) (mult : Option SourceValue) (nm : Option String)
          (eid : String) (mv : Option ℚ),
        (match mult with
         | some m => (m.resolve parse params).map some
         | none => Except.ok none) = .ok mv →
        StatTemplateManager.resolveTransformWithEntity parse (.map ds mult nm)
            params eid
          = .ok (.map (ds.map (fun d => if eid ≠ "" then eid ++ ":" ++ d else d))
              (mv.getD 1)))
    ∧ ((StatTemplateManager.applyTemplate pNone mgrMapSTR ⟨[], []⟩ "T" "A:HP"
          []).2.1.transforms = [("A:HP", .map ["A:STR"] 1)]
        ∧ (StatTemplateManager.applyTemplate pNone mgrMapSTR ⟨[], []⟩ "T" "B:HP"
          []).2.1.transforms = [("B:HP", .map ["B:STR"] 1)]) := by
  refine ⟨?_, ?_, ?_, rfl, rfl⟩
  · intro pre rest h
    unfold extractEntityId
    rw [show (String.mk (pre ++ ':' :: rest)).toList = pre ++ ':' :: rest from rfl]
    rw [findIdx_colon_append rest pre h]
    simp [List.take_left]
  · intro s h
    unfold extractEntityId
    rw [findIdx_colon_none s.toList h]
  · intro ds mult nm eid mv hm
    exact mapTransform_scoped parse params ds mult nm eid mv hm

theorem applyTemplate_entity_scoping_witness :
    extractEntityId "A:HP" = "A"
    ∧ extractEntityId "HP" = ""
    ∧ StatTemplateManager.resolveTransformWithEntity pNone (.map ["STR"] none none)
        [] "A" = .ok (.map ["A:STR"] 1) :=
  ⟨(applyTemplate_entity_scoping pNone []).1 ['A'] ['H', 'P'] (by decide),
   (applyTemplate_entity_scoping pNone []).2.1 "HP" (by decide),
   ((applyTemplate_entity_scoping pNone []).2.2.1 ["STR"] none none "A" none
     rfl).trans rfl⟩

/-- Claim C10: a target stat name starting with a colon yields the empty
entity id (the prefix before the first colon at position zero), so Map and
Conditional dependency names are registered unprefixed, as global
identifiers. -/
theorem colonPrefixed_names_stay_global :
    (∀ rest : String, extractEntityId (":" ++ rest) = "")
    ∧ (StatTemplateManager.applyTemplate pNone mgrMapCond ⟨[], []⟩ "T" ":HP"
        []).2.1.transforms =
      [(":HP", .map ["STR"] 1),
       (":HP", .conditional "RAGE" 50 .greaterThan (.additive 1) none)] := by
  constructor
  · intro rest
    have h1 : (":" ++ rest).toList = ':' :: rest.toList := by
      have h2 : (":" ++ rest).toList = ":".toList ++ rest.toList := by
        simp [String.toList, String.data_append]
      rw [h2, show ":".toList = [':'] from rfl]
      rfl
    unfold extractEntityId
    rw [h1]
    simp [List.findIdx?_cons]
  · rfl

/-- Claim C1 counterexample: applying a template whose Conditional transform
has a Map with dependency STR in its then branch to the entity-scoped stat
A:HP compiles the condition stat to A:RAGE but leaves the nested Map
dependency as the bare STR - the compiled dependency list is [A:RAGE, STR] and
A:STR does not occur in it, refuting the claim that every dependency declared
inside the Conditional is resolved relative to the entity. -/
theorem conditional_nested_dependency_not_scoped :
    (StatTemplateManager.applyTemplate pNone mgrCondNested ⟨[], []⟩ "T" "A:HP"
        []).2.1.transforms =
      [("A:HP", .conditional "A:RAGE" 50 .greaterThan (.map ["STR"] 1) none)]
    ∧ (CTransform.conditional "A:RAGE" 50 .greaterThan (.map ["STR"] 1)
        none).dependsOn = ["A:RAGE", "STR"]
    ∧ "A:STR" ∉ (CTransform.conditional "A:RAGE" 50 .greaterThan
        (.map ["STR"] 1) none).dependsOn :=
  ⟨rfl, rfl, by decide⟩

/-- Claim C1 amended: for a Conditional transform compiled with a non-empty
entity id, only the condition stat is resolved relative to the entity (its
identifier is entity_id ++ colon ++ condition_stat); the then and else
sub-transforms are resolved through resolve_transform, that is with the empty
entity id, so their dependency names (for example nested Map dependency names)
stay bare, treated as global identifiers. -/
theorem conditional_scopes_condition_only (parse : String → Option ℚ)
    (cs : String) (cv : ℚ) (opStr : String) (thenC : TransformConfig)
    (elseC : Option TransformConfig) (params : Params) (eid : String)
    (heid : eid ≠ "") (op : ConditionalOperator)
    (hop : ConditionalOperator.fromStr opStr = .ok op) (tT : CTransform)
    (ht : StatTemplateManager.resolveTransform parse thenC params = .ok tT)
    (eT : Option CTransform)
    (he : StatTemplateManager.resolveElseThen parse elseC params = .ok eT) :
    StatTemplateManager.resolveTransformWithEntity parse
        (.conditional cs cv opStr thenC elseC) params eid
      = .ok (.conditional (eid ++ ":" ++ cs) cv op tT eT)
    ∧ (∀ (ds : List String) (nm : Option String), thenC = .map ds none nm →
        tT = .map ds 1) := by
  have ht' : StatTemplateManager.resolveTransformWithEntity parse thenC params ""
      = .ok tT := ht
  constructor
  · simp [StatTemplateManager.resolveTransformWithEntity, heid, hop, ht', he]
  · intro ds nm hthen
    subst hthen
    have hsc := (mapTransform_scoped parse params ds none nm "" none rfl).symm.trans ht'
    simp at hsc
    exact hsc.symm

theorem conditional_scopes_condition_only_witness :
    StatTemplateManager.resolveTransformWithEntity pNone
        (.conditional "RAGE" 50 ">" (.map ["STR"] none none) none) [] "A"
      = .ok (.conditional "A:RAGE" 50 .greaterThan (.map ["STR"] 1) none) :=
  (conditional_scopes_condition_only pNone "RAGE" 50 ">" (.map ["STR"] none none)
    none [] "A" (by decide) .greaterThan rfl (.map ["STR"] 1) rfl none rfl).1

/-- Claim C2 counterexample: a successful apply_template call (template T
applied to A:HP) reports no error yet leaves the manager's entity
configuration cache exactly as it was - empty - so no Entity Stat Application
Record is appended by apply_template; the method takes the manager by shared
reference and cannot record anything. -/
theorem applyTemplate_appends_no_record :
    (StatTemplateManager.applyTemplate pNone mgrConst ⟨[], []⟩ "T" "A:HP" []).2.2
      = none
    ∧ (StatTemplateManager.applyTemplate pNone mgrConst ⟨[], []⟩ "T" "A:HP"
        []).1.entity_configs = [] :=
  ⟨rfl, rfl⟩

theorem pushEntityConfig_lookup_self (c : EntityStatConfig) :
    ∀ cache, (pushEntityConfig cache c).lookup c.entity_id
      = some ((cache.lookup c.entity_id).getD [] ++ [c]) := by
  intro cache
  induction cache with
  | nil => simp [pushEntityConfig, List.lookup]
  | cons kv rest ih =>
      obtain ⟨k, v⟩ := kv
      by_cases hk : k = c.entity_id
      · subst hk
        simp [pushEntityConfig, List.lookup]
      · have hbk : (c.entity_id == k) = false :=
          beq_eq_false_iff_ne.mpr (Ne.symm hk)
        simp [pushEntityConfig, List.lookup, hk, hbk, ih]

theorem pushEntityConfig_lookup_ne (c : EntityStatConfig) (k' : String)
    (hne : k' ≠ c.entity_id) :
    ∀ cache, (pushEntityConfig cache c).lookup k' = cache.lookup k' := by
  have hbne : (k' == c.entity_id) = false := beq_eq_false_iff_ne.mpr hne
  intro cache
  induction cache with
  | nil => simp [pushEntityConfig, List.lookup, hbne]
  | cons kv rest ih =>
      obtain ⟨k, v⟩ := kv
      by_cases hk : k = c.entity_id
      · subst hk
        simp [pushEntityConfig, List.lookup, hbne, ih]
      · by_cases hk2 : k' = k
        · subst hk2
          simp [pushEntityConfig, List.lookup, hk]
        · have hbk2 : (k' == k) = false := beq_eq_false_iff_ne.mpr hk2
          simp [pushEntityConfig, List.lookup, hk, hbk2, ih]

theorem mem_pushEntityConfig (c x : EntityStatConfig) (k : String)
    (cache : List (String × List EntityStatConfig))
    (h : x ∈ (cache.lookup k).getD []) :
    x ∈ ((pushEntityConfig cache c).lookup k).getD [] := by
  by_cases hk : k = c.entity_id
  · subst hk
    rw [pushEntityConfig_lookup_self]
    simp only [Option.getD_some]
    exact List.mem_append_left _ h
  · rw [pushEntityConfig_lookup_ne c k hk]
    exact h

theorem mem_foldl_push (x : EntityStatConfig) :
    ∀ (configs : List EntityStatConfig)
      (cache : List (String × List EntityStatConfig)),
      x ∈ (cache.lookup x.entity_id).getD [] →
      x ∈ ((configs.foldl pushEntityConfig cache).lookup x.entity_id).getD [] := by
  intro configs
  induction configs with
  | nil => intro cache h; exact h
  | cons c rest ih =>
      intro cache h
      exact ih _ (mem_pushEntityConfig c x _ _ h)

theorem mem_after_push_all (x : EntityStatConfig) :
    ∀ (configs : List EntityStatConfig)
      (cache : List (String × List EntityStatConfig)), x ∈ configs →
      x ∈ ((configs.foldl pushEntityConfig cache).lookup x.entity_id).getD [] := by
  intro configs
  induction configs with
  | nil => intro cache h; simp at h
  | cons c rest ih =>
      intro cache h
      rcases List.mem_cons.mp h with heq | hmem
      · subst heq
        simp only [List.foldl_cons]
        exact mem_foldl_push x rest _ (by rw [pushEntityConfig_lookup_self]; simp)
      · simp only [List.foldl_cons]
        exact ih _ hmem

/-- Claim C2 amended: apply_template itself appends nothing to the entity
configuration cache (it takes the manager by shared reference, so the manager
after any call is the manager before it); Entity Stat Application Records are
appended, keyed by entity id, by load_entity_stats: on success every supplied
record ends up in the cache under its entity id. -/
theorem loadEntityStats_appends_records (parse : String → Option ℚ)
    (mgr : StatTemplateManager) (r : StatResolver)
    (configs : List EntityStatConfig) (mgr' : StatTemplateManager)
    (r' : StatResolver)
    (h : StatTemplateManager.loadEntityStats parse mgr r configs
      = (mgr', r', none)) :
    mgr'.entity_configs = configs.foldl pushEntityConfig mgr.entity_configs
    ∧ (∀ c ∈ configs, c ∈ (mgr'.entity_configs.lookup c.entity_id).getD [])
    ∧ (∀ (tn sn : String) (ps : Params),
        (StatTemplateManager.applyTemplate parse mgr r tn sn ps).1 = mgr) := by
  have key : mgr'.entity_configs
      = configs.foldl pushEntityConfig mgr.entity_configs := by
    unfold StatTemplateManager.loadEntityStats at h
    cases hloop : StatTemplateManager.loadEntityStatsLoop parse mgr r configs with
    | mk r1 oe =>
        cases oe with
        | none =>
            rw [hloop] at h
            injection h with h1 h2
            rw [← h1]
        | some e =>
            rw [hloop] at h
            injection h with h1 h2
            injection h2 with h2a h2b
            exact absurd h2b (by simp)
  refine ⟨key, ?_, ?_⟩
  · intro c hc
    rw [key]
    exact mem_after_push_all c configs mgr.entity_configs hc
  · intro tn sn ps
    simp only [StatTemplateManager.applyTemplate]
    split
    · rfl
    · split
      · rfl
      · rfl

theorem loadEntityStats_appends_records_witness :
    cfgA ∈ ((mgrAfterLoad.entity_configs).lookup cfgA.entity_id).getD []
    ∧ (StatTemplateManager.applyTemplate pNone mgrConst ⟨[], []⟩ "T" "A:HP"
        []).1 = mgrConst := by
  obtain ⟨h1, h2, h3⟩ := loadEntityStats_appends_records pNone mgrConst ⟨[], []⟩
    [cfgA] mgrAfterLoad rAfterLoad rfl
  exact ⟨h2 cfgA (by simp), h3 "T" "A:HP" []⟩

theorem applySources_spec (parse : String → Option ℚ) (params : Params)
    (sid : StatId) :
    ∀ (cs : List SourceConfig) (r : StatResolver),
      StatTemplateManager.applySources parse cs params sid r =
        ({ r with sources := r.sources ++
            (okPre (cs.map (fun c => StatTemplateManager.resolveSource parse c
              params))).map (fun v => (sid, v)) },
         firstErr (cs.map (fun c => StatTemplateManager.resolveSource parse c
           params))) := by
  intro cs
  induction cs with
  | nil => intro r; simp [StatTemplateManager.applySources, okPre, firstErr]
  | cons c rest ih =>
      intro r
      cases hc : StatTemplateManager.resolveSource parse c params with
      | error e =>
          simp [StatTemplateManager.applySources, hc, okPre, firstErr]
      | ok v =>
          simp [StatTemplateManager.applySources, hc, okPre, firstErr, ih,
            StatResolver.registerSource]

theorem applyTransforms_spec (parse : String → Option ℚ) (params : Params)
    (entity_id : String) (sid : StatId) :
    ∀ (cs : List TransformConfig) (r : StatResolver),
      StatTemplateManager.applyTransforms parse cs params entity_id sid r =
        ({ r with transforms := r.transforms ++
            (okPre (cs.map (fun c => StatTemplateManager.resolveTransformWithEntity
              parse c params entity_id))).map (fun u => (sid, u)) },
         firstErr (cs.map (fun c => StatTemplateManager.resolveTransformWithEntity
           parse c params entity_id))) := by
  intro cs
  induction cs with
  | nil => intro r; simp [StatTemplateManager.applyTransforms, okPre, firstErr]
  | cons c rest ih =>
      intro r
      cases hc : StatTemplateManager.resolveTransformWithEntity parse c params
          entity_id with
      | error e =>
          simp [StatTemplateManager.applyTransforms, hc, okPre, firstErr]
      | ok u =>
          simp [StatTemplateManager.applyTransforms, hc, okPre, firstErr, ih,
            StatResolver.registerTransform]

/-- Claim C8: a call to apply_template registers under the target stat
identifier exactly the sources compiled before the first failing step and -
when all sources compile - exactly the transforms compiled before the first
failing transform; nothing compiled after the failing step is registered and
nothing already registered is rolled back; the reported error is the first
failure. -/
theorem applyTemplate_partial_registration (parse : String → Option ℚ)
    (mgr : StatTemplateManager) (r : StatResolver) (tn sn : String)
    (params : Params) (t : StatTemplate)
    (hlookup : mgr.templates.lookup tn = some t) :
    StatTemplateManager.applyTemplate parse mgr r tn sn params =
      (mgr,
       { sources := r.sources ++
           (okPre (t.sources.map (fun c =>
             StatTemplateManager.resolveSource parse c params))).map
             (fun v => (sn, v)),
         transforms := r.transforms ++
           (match firstErr (t.sources.map (fun c =>
               StatTemplateManager.resolveSource parse c params)) with
            | none => (okPre (t.transforms.map (fun c =>
                StatTemplateManager.resolveTransformWithEntity parse c params
                  (extractEntityId sn)))).map (fun u => (sn, u))
            | some _ => []) },
       (match firstErr (t.sources.map (fun c =>
           StatTemplateManager.resolveSource parse c params)) with
        | none => firstErr (t.transforms.map (fun c =>
            StatTemplateManager.resolveTransformWithEntity parse c params
              (extractEntityId sn)))
        | some e => some e)) := by
  simp only [StatTemplateManager.applyTemplate, hlookup]
  rw [applySources_spec]
  cases hfe : firstErr (t.sources.map (fun c =>
      StatTemplateManager.resolveSource parse c params)) with
  | some e => simp
  | none =>
      simp only [applyTransforms_spec parse params (extractEntityId sn) sn]

theorem applyTemplate_partial_registration_witness :
    StatTemplateManager.applyTemplate pNone mgrFailingSource ⟨[], []⟩ "T" "A:HP" [] =
      (mgrFailingSource, { sources := [("A:HP", 1)], transforms := [] },
       some (.invalidConfig
         "Source resolution error: Parameter not found: missing")) := by
  rw [applyTemplate_partial_registration pNone mgrFailingSource ⟨[], []⟩ "T" "A:HP" []
    tmplFailingSource rfl]
  rfl

theorem decodeSourceValue_encode (v : SourceValue) :
    decodeSourceValue (encodeSourceValue v) = some v := by
  cases v <;> rfl

theorem decodeOptName_encode (nm : Option String) :
    decodeOptName (encodeOptName nm) = some nm := by
  cases nm <;> rfl

theorem decodeOptSourceValue_encode (o : Option SourceValue) :
    decodeOptSourceValue (encodeOptSourceValue o) = some o := by
  cases o with
  | none => rfl
  | some v => cases v <;> rfl

theorem decodeSourceConfig_encode (c : SourceConfig) :
    decodeSourceConfig (encodeSourceConfig c) = some c := by
  cases c with
  | constant value name =>
      simp [encodeSourceConfig, decodeSourceConfig, decodeSourceValue_encode,
        decodeOptName_encode]
  | scaling base scale level name =>
      simp [encodeSourceConfig, decodeSourceConfig, decodeSourceValue_encode,
        decodeOptSourceValue_encode, decodeOptName_encode]

theorem decodeStrList_encode (ds : List String) :
    decodeStrList (ds.map JsonValue.str) = some ds := by
  induction ds with
  | nil => rfl
  | cons d rest ih => simp [decodeStrList, ih]

theorem encodeTransformConfig_obj (t : TransformConfig) :
    ∃ fs, encodeTransformConfig t = .obj fs := by
  cases t <;> simp [encodeTransformConfig]

set_option maxHeartbeats 2000000 in
theorem decodeTransformConfig_encode : ∀ t : TransformConfig,
    decodeTransformConfig (encodeTransformConfig t) = some t
  | .multiplicative value name => by
      simp [encodeTransformConfig, decodeTransformConfig,
        decodeSourceValue_encode, decodeOptName_encode]
  | .additive value name => by
      simp [encodeTransformConfig, decodeTransformConfig,
        decodeSourceValue_encode, decodeOptName_encode]
  | .clamp mn mx name => by
      simp [encodeTransformConfig, decodeTransformConfig,
        decodeOptSourceValue_encode, decodeOptName_encode]
  | .conditional cs cv opStr thenC elseC => by
      have iht := decodeTransformConfig_encode thenC
      have ihe : decodeElseThen (encodeElseThen elseC) = some elseC := by
        cases elseC with
        | none => simp [encodeElseThen, decodeElseThen]
        | some e =>
            have ih2 := decodeTransformConfig_encode e
            obtain ⟨fs, hfs⟩ := encodeTransformConfig_obj e
            rw [encodeElseThen, hfs]
            rw [hfs] at ih2
            simp [decodeElseThen, ih2]
      simp [encodeTransformConfig, decodeTransformConfig, iht, ihe]
  | .map ds mult name => by
      simp [encodeTransformConfig, decodeTransformConfig, decodeStrList_encode,
        decodeOptSourceValue_encode, decodeOptName_encode]

theorem decodeJsonList_encode {α : Type} (enc : α → JsonValue)
    (dec : JsonValue → Option α) (h : ∀ x, dec (enc x) = some x) :
    ∀ xs : List α, decodeJsonList dec (xs.map enc) = some xs := by
  intro xs
  induction xs with
  | nil => rfl
  | cons x rest ih => simp [decodeJsonList, h, ih]

theorem decodeNamedList_encode {α : Type} (enc : α → JsonValue)
    (dec : JsonValue → Option α) (h : ∀ x, dec (enc x) = some x) :
    ∀ ps : List (String × α),
      decodeNamedList dec (ps.map (fun p => (p.1, enc p.2))) = some ps := by
  intro ps
  induction ps with
  | nil => rfl
  | cons p rest ih => simp [decodeNamedList, h, ih]

theorem decodeStatTemplate_encode (t : StatTemplate) :
    decodeStatTemplate (encodeStatTemplate t) = some t := by
  obtain ⟨d, ss, ts⟩ := t
  cases d <;>
    simp [encodeStatTemplate, decodeStatTemplate,
      decodeJsonList_encode encodeSourceConfig decodeSourceConfig
        decodeSourceConfig_encode,
      decodeJsonList_encode encodeTransformConfig decodeTransformConfig
        decodeTransformConfig_encode]

theorem decodeStatDefinition_encode (d : StatDefinition) :
    decodeStatDefinition (encodeStatDefinition d) = some d := by
  obtain ⟨ss, ts⟩ := d
  simp [encodeStatDefinition, decodeStatDefinition,
    decodeJsonList_encode encodeSourceConfig decodeSourceConfig
      decodeSourceConfig_encode,
    decodeJsonList_encode encodeTransformConfig decodeTransformConfig
      decodeTransformConfig_encode]

theorem decodeStatConfig_encode (c : StatConfig) :
    decodeStatConfig (encodeStatConfig c) = some c := by
  obtain ⟨ts, ss⟩ := c
  simp [encodeStatConfig, decodeStatConfig,
    decodeNamedList_encode encodeStatTemplate decodeStatTemplate
      decodeStatTemplate_encode,
    decodeNamedList_encode encodeStatDefinition decodeStatDefinition
      decodeStatDefinition_encode]

/-- Claim C9: serializing the template table with templates_to_json and
reloading the result with from_json is lossless: the reloaded manager holds
the identical template table (with an empty record cache), hence looks up
every template name identically and compiles every source and transform
description to identical units under any numeric parser, parameter table and
entity id. -/
theorem templates_to_json_roundtrip (parse : String → Option ℚ)
    (mgr : StatTemplateManager) :
    StatTemplateManager.fromJson (StatTemplateManager.templatesToJson mgr)
      = some { templates := mgr.templates, entity_configs := [] }
    ∧ (∀ tn : String,
        (StatTemplateManager.fromJson (StatTemplateManager.templatesToJson mgr)).map
            (fun m2 => m2.templates.lookup tn)
          = some (mgr.templates.lookup tn))
    ∧ (∀ (tn : String) (params : Params) (eid : String),
        (StatTemplateManager.fromJson (StatTemplateManager.templatesToJson mgr)).map
            (fun m2 => (m2.templates.lookup tn).map (fun t =>
              (t.sources.map (fun c =>
                 StatTemplateManager.resolveSource parse c params),
               t.transforms.map (fun c =>
                 StatTemplateManager.resolveTransformWithEntity parse c params
                   eid))))
          = some ((mgr.templates.lookup tn).map (fun t =>
              (t.sources.map (fun c =>
                 StatTemplateManager.resolveSource parse c params),
               t.transforms.map (fun c =>
                 StatTemplateManager.resolveTransformWithEntity parse c params
                   eid))))) := by
  have key : StatTemplateManager.fromJson (StatTemplateManager.templatesToJson mgr)
      = some { templates := mgr.templates, entity_configs := [] } := by
    unfold StatTemplateManager.templatesToJson StatTemplateManager.fromJson
    rw [decodeStatConfig_encode]
    rfl
  exact ⟨key, fun tn => by rw [key]; rfl, fun tn params eid => by rw [key]; rfl⟩

theorem conditionalTransform_apply_semantics_witness :
    (CTransform.conditional "MP" 0 .greaterThanOrEqual (.additive 5) none).apply 1
        [("HP", 10)] = .ok 6
    ∧ (CTransform.conditional "MP" 3 .lessThan (.additive 5) none).apply 1
        [("HP", 10)] = .ok 6 := by
  have hb : ("MP" == "HP") = false := by decide
  constructor
  · rw [(conditionalTransform_apply_semantics "MP" 0 (.additive 5) none 1
      [("HP", 10)]).2.2.1]
    norm_num [List.lookup, hb, CTransform.apply]
  · rw [(conditionalTransform_apply_semantics "MP" 3 (.additive 5) none 1
      [("HP", 10)]).2.2.2.2.2 (by decide) ConditionalOperator.lessThan]
    norm_num [ConditionalOperator.evaluate, CTransform.apply]
